import Mathlib

/-!
Shallow embedding of the Sonic Spinball autosplitter (src/src/lib.rs).

The source is a LiveSplit auto-splitter for Sega Genesis Sonic Spinball:
a watcher bank of five two-slot histories, a level classifier, three
edge-triggered predicates (start / split / reset), and a per-tick
orchestrator `update()` that emits at most one timer control signal.

External collaborators (the `asr` runtime) are modelled as explicit
inputs to the tick: the registered settings, the attachment probe
result, the raw memory read results, and the external timer phase
reported during the tick.
-/

namespace Spinball

/-- The seven canonical progress levels, in progression order
(`enum Levels` in the source). -/
inductive Levels where
  | ToxicCaves
  | Bonus1
  | LavaPowerHouse
  | Bonus2
  | TheMachine
  | Bonus3
  | TheShowdown
deriving DecidableEq, Repr

/-- A two-slot history: previous and current observed value
(`asr::watcher::Pair`). -/
structure Pair (T : Type) where
  old : T
  current : T
deriving DecidableEq, Repr

/-- Modelled from the spec: the Watcher primitive is implemented in the
external `asr` crate (`asr::watcher::Watcher`), whose source is not part
of this repository; only its use sites are in src/src/lib.rs. Spec §4.1
describes it as an optional pair that is `None` until first primed. -/
structure Watcher (T : Type) where
  pair : Option (Pair T)
deriving DecidableEq, Repr

/-- Modelled from the spec: `Watcher.update(reading)` per §4.1 — if the
reading is present, shift current into old and set current to the
reading (the first successful update leaves old = current = reading);
if the reading is absent, no-op, preserving whatever pair existed. -/
def Watcher.update {T : Type} (w : Watcher T) (reading : Option T) : Watcher T :=
  match reading with
  | none => w
  | some v =>
    match w.pair with
    | none => ⟨some ⟨v, v⟩⟩
    | some p => ⟨some ⟨p.current, v⟩⟩

/-- Modelled from the spec: `Watcher.update_infallible(reading)` per
§4.1 unconditionally applies the shift-and-set. -/
def Watcher.update_infallible {T : Type} (w : Watcher T) (v : T) : Watcher T :=
  w.update (some v)

/-- The five named watchers of the bank (`struct Watchers`). Raw bytes
and words are modelled as `Nat`. -/
structure Watchers where
  levelid : Watcher Levels
  state : Watcher Nat
  menu_timeout : Watcher Nat
  menu_trigger : Watcher Nat
  menu_selection : Watcher Nat
deriving DecidableEq, Repr

/-- The nine user-configurable boolean toggles (`struct Settings`). -/
structure Settings where
  start : Bool
  reset : Bool
  toxic_caves : Bool
  bonus_1 : Bool
  lava_powerhouse : Bool
  bonus_2 : Bool
  the_machine : Bool
  bonus_3 : Bool
  the_showdown : Bool
deriving DecidableEq, Repr

/-- The tick state (`struct State`): lazily-initialized configuration
plus the watcher bank. -/
structure State where
  settings : Option Settings
  watchers : Watchers
deriving DecidableEq, Repr

/-- The initial value of the `AUTOSPLITTER` static: no settings, all
watchers unprimed. -/
def initialState : State :=
  { settings := none
    watchers :=
      { levelid := ⟨none⟩
        state := ⟨none⟩
        menu_timeout := ⟨none⟩
        menu_trigger := ⟨none⟩
        menu_selection := ⟨none⟩ } }

/-- The raw per-tick read results delivered by the emulator transport
(`genesis::read` at the five polled addresses); `none` models a failed
read. -/
structure Reads where
  state_byte : Option Nat
  level_1 : Option Nat
  level_2 : Option Nat
  menu_timeout : Option Nat
  menu_trigger : Option Nat
  menu_selection : Option Nat
deriving DecidableEq, Repr

/-- The level classification `match` inside `State::update`
(src/src/lib.rs lines 75-90), as a function of the two raw discriminant
bytes and the just-refreshed current run-phase value. -/
def levelClassifier (level_1 level_2 state_current : Nat) : Levels :=
  match level_1 with
  | 1 =>
    match level_2 with
    | 1 | 2 => if state_current = 6 then Levels.Bonus1 else Levels.LavaPowerHouse
    | _ => Levels.LavaPowerHouse
  | 2 =>
    match level_2 with
    | 1 | 2 => if state_current = 6 then Levels.Bonus2 else Levels.TheMachine
    | _ => Levels.TheMachine
  | 3 =>
    match level_2 with
    | 1 | 2 => if state_current = 6 then Levels.Bonus3 else Levels.TheShowdown
    | _ => Levels.TheShowdown
  | _ => Levels.ToxicCaves

/-- `State::update` (src/src/lib.rs lines 69-104): refresh the run-phase
watcher infallibly with the read at 0x3CB7 defaulted to 0, classify the
level from the reads at 0x5789 and 0x3CA9, refresh the level watcher
infallibly, update the menu-timeout and menu-trigger watchers fallibly,
and update the menu-selection watcher infallibly with the sticky rule on
the read at 0xFF69. -/
def State.update (s : State) (r : Reads) : State :=
  let stateW := s.watchers.state.update_infallible (r.state_byte.getD 0)
  let statePair := stateW.pair.getD ⟨0, 0⟩
  let level_1 := r.level_1.getD 0
  let level_2 := r.level_2.getD 0
  let current_level := levelClassifier level_1 level_2 statePair.current
  let levelW := s.watchers.levelid.update_infallible current_level
  let timeoutW := s.watchers.menu_timeout.update r.menu_timeout
  let triggerW := s.watchers.menu_trigger.update r.menu_trigger
  let temp_menu_selection := r.menu_selection.getD 0
  let menu_selection :=
    match temp_menu_selection with
    | 1 | 2 | 15 => temp_menu_selection
    | _ =>
      match s.watchers.menu_selection.pair with
      | some x => x.current
      | _ => 0
  let selectionW := s.watchers.menu_selection.update_infallible menu_selection
  { s with
    watchers :=
      { levelid := levelW
        state := stateW
        menu_timeout := timeoutW
        menu_trigger := triggerW
        menu_selection := selectionW } }

/-- `State::start` (src/src/lib.rs lines 106-116). -/
def State.start (s : State) : Bool :=
  match s.settings with
  | none => false
  | some settings =>
    if !settings.start then false
    else
      match s.watchers.menu_timeout.pair with
      | none => false
      | some menu_timeout =>
        match s.watchers.menu_selection.pair with
        | none => false
        | some menu_selection =>
          match s.watchers.menu_trigger.pair with
          | none => false
          | some menu_trigger =>
            match s.watchers.state.pair with
            | none => false
            | some state =>
              (decide (menu_selection.old = 15) || decide (menu_selection.old = 1)) &&
                decide (state.current = 0) && decide (menu_timeout.old > 10) &&
                decide (menu_trigger.old = 3) && decide (menu_trigger.current < 3)

/-- `State::split` (src/src/lib.rs lines 118-132). -/
def State.split (s : State) : Bool :=
  match s.settings with
  | none => false
  | some settings =>
    match s.watchers.levelid.pair with
    | none => false
    | some level =>
      match s.watchers.state.pair with
      | none => false
      | some state =>
        match level.old with
        | Levels.ToxicCaves => settings.toxic_caves && decide (level.current = Levels.Bonus1)
        | Levels.Bonus1 => settings.bonus_1 && decide (level.current = Levels.LavaPowerHouse)
        | Levels.LavaPowerHouse => settings.lava_powerhouse && decide (level.current = Levels.Bonus2)
        | Levels.Bonus2 => settings.bonus_2 && decide (level.current = Levels.TheMachine)
        | Levels.TheMachine => settings.the_machine && decide (level.current = Levels.Bonus3)
        | Levels.Bonus3 => settings.bonus_3 && decide (level.current = Levels.TheShowdown)
        | Levels.TheShowdown =>
          settings.the_showdown && decide (state.old = 2) && decide (state.current = 4)

/-- `State::reset` (src/src/lib.rs lines 134-140). -/
def State.reset (s : State) : Bool :=
  match s.settings with
  | none => false
  | some settings =>
    if !settings.reset then false
    else
      match s.watchers.state.pair with
      | none => false
      | some state =>
        decide (state.old > 0) && decide (state.old ≤ 6) && decide (state.current = 0)

/-- The external timer's phase as reported by `timer::state()`. -/
inductive TimerState where
  | NotRunning
  | Running
  | Paused
deriving DecidableEq, Repr

/-- A control signal sent to the external timer. -/
inductive Signal where
  | Start
  | Split
  | Reset
deriving DecidableEq, Repr

/-- The state after the unconditional first step of a tick: the lazy
one-shot settings initialization `settings.get_or_insert_with(Settings::register)`
(src/src/lib.rs line 159), with `reg` the settings the host registration
call would return. -/
def settle (s : State) (reg : Settings) : State :=
  { s with
    settings :=
      match s.settings with
      | none => some reg
      | some x => some x }

/-- The tick state after the watcher refresh, for an attached tick:
settings initialization followed by `State::update`. -/
def tickState (s : State) (reg : Settings) (r : Reads) : State :=
  (settle s reg).update r

/-- Modelled from the spec: the external run-timer (out of scope per §1,
a state machine over {NotRunning, Running, Paused} per §4.4) reacts to
each control signal — Reset returns it to NotRunning, Start sets it
Running, and Split never returns it to NotRunning (a mid-run split keeps
the phase; a final split ends the run, which is likewise not
NotRunning). -/
def timerReact (phase : TimerState) : Signal → TimerState
  | Signal.Reset => TimerState.NotRunning
  | Signal.Start => TimerState.Running
  | Signal.Split => phase

/-- The exported `update()` entry point (src/src/lib.rs lines 153-212)
as one pure tick: initialize settings if needed; if the process is not
attached, stop; otherwise refresh the bank, then — with `phase` the
phase the external timer reports when first queried (line 177) — if the
timer is Running or Paused emit Reset when `reset()` holds, else Split
when `split()` holds; the source then queries `timer::state()` again
(line 198), which now reports the phase after the timer reacted to the
signals just sent, and if that is NotRunning emits Start when `start()`
holds. Returns the new state and the emitted signals in order. -/
def tick (s : State) (reg : Settings) (attached : Bool) (r : Reads)
    (phase : TimerState) : State × List Signal :=
  let s1 := settle s reg
  if !attached then (s1, [])
  else
    let s2 := s1.update r
    let sigs1 : List Signal :=
      if phase = TimerState.Running ∨ phase = TimerState.Paused then
        if s2.reset then [Signal.Reset]
        else if s2.split then [Signal.Split]
        else []
      else []
    let phase1 : TimerState := sigs1.foldl timerReact phase
    let sigs2 : List Signal :=
      if phase1 = TimerState.NotRunning then
        if s2.start then [Signal.Start] else []
      else []
    (s2, sigs1 ++ sigs2)

/-- The immediate successor in the fixed progression order of spec §3
(`ToxicCaves → Bonus1 → LavaPowerHouse → Bonus2 → TheMachine → Bonus3 →
TheShowdown`); `none` for the final level. -/
def levelSucc : Levels → Option Levels
  | Levels.ToxicCaves => some Levels.Bonus1
  | Levels.Bonus1 => some Levels.LavaPowerHouse
  | Levels.LavaPowerHouse => some Levels.Bonus2
  | Levels.Bonus2 => some Levels.TheMachine
  | Levels.TheMachine => some Levels.Bonus3
  | Levels.Bonus3 => some Levels.TheShowdown
  | Levels.TheShowdown => none

/-- The configuration flag matching a level segment. -/
def segEnabled (settings : Settings) : Levels → Bool
  | Levels.ToxicCaves => settings.toxic_caves
  | Levels.Bonus1 => settings.bonus_1
  | Levels.LavaPowerHouse => settings.lava_powerhouse
  | Levels.Bonus2 => settings.bonus_2
  | Levels.TheMachine => settings.the_machine
  | Levels.Bonus3 => settings.bonus_3
  | Levels.TheShowdown => settings.the_showdown

/-- Characterization of `State.start`. -/
theorem start_char (s : State) :
    s.start = true ↔
      ∃ settings menu_timeout menu_selection menu_trigger state,
        s.settings = some settings ∧ settings.start = true ∧
        s.watchers.menu_timeout.pair = some menu_timeout ∧
        s.watchers.menu_selection.pair = some menu_selection ∧
        s.watchers.menu_trigger.pair = some menu_trigger ∧
        s.watchers.state.pair = some state ∧
        (menu_selection.old = 1 ∨ menu_selection.old = 15) ∧
        state.current = 0 ∧ 10 < menu_timeout.old ∧
        menu_trigger.old = 3 ∧ menu_trigger.current < 3 := by
  unfold State.start
  cases hset : s.settings with
  | none => simp
  | some settings =>
    cases htp : s.watchers.menu_timeout.pair <;>
      cases hsp : s.watchers.menu_selection.pair <;>
        cases hgp : s.watchers.menu_trigger.pair <;>
          cases hstp : s.watchers.state.pair <;>
            cases hb : settings.start <;>
              (simp_all; try tauto)

/-- Characterization of `State.split`. -/
theorem split_char (s : State) :
    s.split = true ↔
      ∃ settings level state,
        s.settings = some settings ∧
        s.watchers.levelid.pair = some level ∧
        s.watchers.state.pair = some state ∧
        ((∃ nxt, levelSucc level.old = some nxt ∧
            segEnabled settings level.old = true ∧ level.current = nxt) ∨
          (level.old = Levels.TheShowdown ∧ settings.the_showdown = true ∧
            state.old = 2 ∧ state.current = 4)) := by
  unfold State.split
  cases hset : s.settings with
  | none => simp
  | some settings =>
    cases hlp : s.watchers.levelid.pair with
    | none => simp
    | some level =>
      cases hstp : s.watchers.state.pair with
      | none => simp
      | some state =>
        obtain ⟨lold, lcur⟩ := level
        cases lold <;> simp [levelSucc, segEnabled] <;> tauto

/-- Characterization of `State.reset`. -/
theorem reset_char (s : State) :
    s.reset = true ↔
      ∃ settings state,
        s.settings = some settings ∧ settings.reset = true ∧
        s.watchers.state.pair = some state ∧
        1 ≤ state.old ∧ state.old ≤ 6 ∧ state.current = 0 := by
  unfold State.reset
  cases hset : s.settings with
  | none => simp
  | some settings =>
    cases hstp : s.watchers.state.pair <;>
      cases hb : settings.reset <;>
        (simp_all [Nat.succ_le_iff]; try tauto)

/-- A settings record with every toggle enabled (the default of the
source's `#[default = true]` attributes). -/
def allTrue : Settings :=
  ⟨true, true, true, true, true, true, true, true, true⟩

/-- Claim C2: `split()` returns true iff the level and run-phase watchers
are primed and the configuration holds a record whose flag for the
departed level is enabled, and either the departed level has an immediate
successor in the fixed progression order which equals the current level,
or the departed level is TheShowdown and the run-phase edge old = 2,
current = 4 holds (the current level unconstrained). -/
theorem split_spec (s : State) :
    s.split = true ↔
      ∃ settings level state,
        s.settings = some settings ∧
        s.watchers.levelid.pair = some level ∧
        s.watchers.state.pair = some state ∧
        ((∃ nxt, levelSucc level.old = some nxt ∧
            segEnabled settings level.old = true ∧ level.current = nxt) ∨
          (level.old = Levels.TheShowdown ∧ settings.the_showdown = true ∧
            state.old = 2 ∧ state.current = 4)) :=
  split_char s

/-- Claim C3: `start()` returns true iff the configuration is initialized
with auto-start enabled, the menu-timeout, menu-selection, menu-trigger
and run-phase watchers are primed, menu-selection.old ∈ {1, 15},
run-phase.current = 0, menu-timeout.old > 10, menu-trigger.old = 3 and
menu-trigger.current < 3. -/
theorem start_spec (s : State) :
    s.start = true ↔
      ∃ settings menu_timeout menu_selection menu_trigger state,
        s.settings = some settings ∧ settings.start = true ∧
        s.watchers.menu_timeout.pair = some menu_timeout ∧
        s.watchers.menu_selection.pair = some menu_selection ∧
        s.watchers.menu_trigger.pair = some menu_trigger ∧
        s.watchers.state.pair = some state ∧
        (menu_selection.old = 1 ∨ menu_selection.old = 15) ∧
        state.current = 0 ∧ 10 < menu_timeout.old ∧
        menu_trigger.old = 3 ∧ menu_trigger.current < 3 :=
  start_char s

/-- Claim C4: `reset()` returns true iff the configuration is initialized
with auto-reset enabled, the run-phase watcher is primed, run-phase.old
lies in the closed interval [1, 6] and run-phase.current = 0. -/
theorem reset_spec (s : State) :
    s.reset = true ↔
      ∃ settings state,
        s.settings = some settings ∧ settings.reset = true ∧
        s.watchers.state.pair = some state ∧
        1 ≤ state.old ∧ state.old ≤ 6 ∧ state.current = 0 :=
  reset_char s

/-- Claim C5: the level classifier is total and satisfies the decision
table — for area_id 1, 2 or 3 with sub_id ∈ {1, 2} and run-phase
current = 6 it yields the matching bonus level; for area_id 1, 2 or 3
otherwise it yields the matching main level; for every other area_id,
0 included, it yields ToxicCaves. -/
theorem levelClassifier_spec (area sub phase : Nat) :
    ((sub = 1 ∨ sub = 2) ∧ phase = 6 →
      levelClassifier 1 sub phase = Levels.Bonus1 ∧
      levelClassifier 2 sub phase = Levels.Bonus2 ∧
      levelClassifier 3 sub phase = Levels.Bonus3) ∧
    (¬((sub = 1 ∨ sub = 2) ∧ phase = 6) →
      levelClassifier 1 sub phase = Levels.LavaPowerHouse ∧
      levelClassifier 2 sub phase = Levels.TheMachine ∧
      levelClassifier 3 sub phase = Levels.TheShowdown) ∧
    (area ≠ 1 → area ≠ 2 → area ≠ 3 →
      levelClassifier area sub phase = Levels.ToxicCaves) := by
  refine ⟨fun h => ?_, fun h => ?_, fun h1 h2 h3 => ?_⟩
  · obtain ⟨hsub, hphase⟩ := h
    subst hphase
    rcases hsub with h | h <;> subst h <;> exact ⟨rfl, rfl, rfl⟩
  · by_cases hp : phase = 6
    · have hs1 : sub ≠ 1 := fun hs => h ⟨Or.inl hs, hp⟩
      have hs2 : sub ≠ 2 := fun hs => h ⟨Or.inr hs, hp⟩
      refine ⟨?_, ?_, ?_⟩ <;> unfold levelClassifier <;> split <;> simp_all
    · refine ⟨?_, ?_, ?_⟩ <;>
        (unfold levelClassifier
         rcases sub with _ | _ | _ | n <;> simp [hp])
  · unfold levelClassifier
    split <;> simp_all

/-- Witness for claim C5: the particular instances named by the claim. -/
theorem levelClassifier_spec_witness :
    levelClassifier 1 1 6 = Levels.Bonus1 ∧
    levelClassifier 1 1 0 = Levels.LavaPowerHouse ∧
    levelClassifier 0 3 9 = Levels.ToxicCaves :=
  ⟨((levelClassifier_spec 1 1 6).1 (by decide)).1,
   ((levelClassifier_spec 1 1 0).2.1 (by decide)).1,
   (levelClassifier_spec 0 3 9).2.2 (by decide) (by decide) (by decide)⟩

/-- Claim C8: each predicate is total (it is a Lean function) and returns
false whenever the configuration is uninitialized or any watcher it
reads is unprimed. -/
theorem predicates_false_when_unprimed (s : State) :
    (s.settings = none → s.start = false ∧ s.split = false ∧ s.reset = false) ∧
    (s.watchers.menu_timeout.pair = none → s.start = false) ∧
    (s.watchers.menu_selection.pair = none → s.start = false) ∧
    (s.watchers.menu_trigger.pair = none → s.start = false) ∧
    (s.watchers.state.pair = none →
      s.start = false ∧ s.split = false ∧ s.reset = false) ∧
    (s.watchers.levelid.pair = none → s.split = false) := by
  have hstart := start_char s
  have hsplit := split_char s
  have hreset := reset_char s
  refine ⟨fun h => ⟨?_, ?_, ?_⟩, fun h => ?_, fun h => ?_, fun h => ?_,
    fun h => ⟨?_, ?_, ?_⟩, fun h => ?_⟩ <;>
      [skip; skip; skip; skip; skip; skip; skip; skip; skip; skip] <;>
      first
      | (cases hb : s.start
         · rfl
         · exact absurd (hstart.mp hb) (by simp [h]))
      | (cases hb : s.split
         · rfl
         · exact absurd (hsplit.mp hb) (by simp [h]))
      | (cases hb : s.reset
         · rfl
         · exact absurd (hreset.mp hb) (by simp [h]))

/-- Witness for claim C8: the initial state has no settings and no primed
watcher, so all three predicates evaluate to false on it. -/
theorem predicates_false_when_unprimed_witness :
    initialState.start = false ∧ initialState.split = false ∧
    initialState.reset = false :=
  (predicates_false_when_unprimed initialState).1 rfl

/-- A concrete state on which both `reset()` and `start()` hold after
the refresh: run-phase history becomes ⟨6, 0⟩, menu-timeout stays
⟨11, 11⟩, menu-trigger becomes ⟨3, 2⟩, menu-selection becomes ⟨1, 1⟩. -/
def cState : State :=
  { settings := some allTrue
    watchers :=
      { levelid := ⟨none⟩
        state := ⟨some ⟨0, 6⟩⟩
        menu_timeout := ⟨some ⟨11, 11⟩⟩
        menu_trigger := ⟨some ⟨0, 3⟩⟩
        menu_selection := ⟨some ⟨0, 1⟩⟩ } }

/-- The read outcome paired with `cState`: the run-phase byte reads 0,
the menu-trigger byte reads 2, the other reads fail. -/
def cReads : Reads := ⟨some 0, none, none, none, some 2, none⟩

/-- Counterexample to claim C1 as stated: on a Running tick where the
refreshed state satisfies both `reset()` and `start()`, the source
emits Reset, the timer it just reset reports NotRunning at the second
`timer::state()` query (line 198), and Start is emitted too — two
signals in one tick. -/
theorem tick_can_emit_two_signals :
    (tick cState allTrue true cReads TimerState.Running).2 =
      [Signal.Reset, Signal.Start] ∧
    ¬((tick cState allTrue true cReads TimerState.Running).2.length ≤ 1) := by
  decide

/-- Claim C1 (amended): the signals one tick emits are one of [],
[Start], [Split], [Reset] or [Reset, Start] — at most one signal per
tick except that a tick emitting Reset may additionally emit Start,
because the timer it just reset reports NotRunning at the second
`timer::state()` query; Split never co-occurs with another signal. -/
theorem tick_signal_shapes (s : State) (reg : Settings)
    (attached : Bool) (r : Reads) (phase : TimerState) :
    (tick s reg attached r phase).2 = [] ∨
    (tick s reg attached r phase).2 = [Signal.Start] ∨
    (tick s reg attached r phase).2 = [Signal.Split] ∨
    (tick s reg attached r phase).2 = [Signal.Reset] ∨
    (tick s reg attached r phase).2 = [Signal.Reset, Signal.Start] := by
  cases attached with
  | false => simp [tick]
  | true =>
    cases phase <;>
      cases hr : ((settle s reg).update r).reset <;>
        cases hp : ((settle s reg).update r).split <;>
          cases hstart : ((settle s reg).update r).start <;>
            simp [tick, timerReact, hr, hp, hstart]

/-- A concrete read outcome used by several concrete evaluations below:
the run-phase byte reads 0, the first level discriminant reads 1, the
other reads fail. -/
def wReads : Reads := ⟨some 0, some 1, none, none, none, none⟩

/-- A concrete tick state used by several concrete evaluations below:
all settings enabled, run-phase history ⟨0, 6⟩, level history
⟨ToxicCaves, Bonus1⟩, the menu watchers unprimed. -/
def wState : State :=
  { settings := some allTrue
    watchers :=
      { levelid := ⟨some ⟨Levels.ToxicCaves, Levels.Bonus1⟩⟩
        state := ⟨some ⟨0, 6⟩⟩
        menu_timeout := ⟨none⟩
        menu_trigger := ⟨none⟩
        menu_selection := ⟨none⟩ } }

/-- Claim C6: on a tick whose external timer phase is Running or Paused,
if `reset()` evaluates to true on the refreshed state, the Reset signal
is emitted and Split is not emitted in that tick, even when `split()`
would also hold — `split()` sits in the else of `reset()`. (The re-query
at line 198 may additionally emit Start, but never Split.) -/
theorem reset_has_priority (s : State) (reg : Settings) (r : Reads)
    (phase : TimerState)
    (hphase : phase = TimerState.Running ∨ phase = TimerState.Paused)
    (hreset : (tickState s reg r).reset = true) :
    Signal.Reset ∈ (tick s reg true r phase).2 ∧
    Signal.Split ∉ (tick s reg true r phase).2 := by
  unfold tick
  unfold tickState at hreset
  rcases hphase with h | h <;> subst h <;> simp [hreset, timerReact]

/-- Witness for claim C6: a concrete tick on which both `reset()` and
`split()` hold after the refresh; Reset is emitted and Split is not. -/
theorem reset_has_priority_witness :
    (tickState wState allTrue wReads).reset = true ∧
    (tickState wState allTrue wReads).split = true ∧
    (Signal.Reset ∈ (tick wState allTrue true wReads TimerState.Running).2 ∧
      Signal.Split ∉ (tick wState allTrue true wReads TimerState.Running).2) :=
  ⟨by decide, by decide,
   reset_has_priority wState allTrue wReads TimerState.Running
     (Or.inl rfl) (by decide)⟩

/-- Counterexample to claim C7 as stated: the lazy settings registration
runs before the attachment check, so the first unattached tick does
mutate the configuration, from uninitialized to initialized. -/
theorem unattached_tick_initializes_settings :
    (tick initialState allTrue false wReads TimerState.NotRunning).1.settings ≠
      initialState.settings := by decide

/-- Claim C7 (amended): an unattached tick emits no signal, leaves all
five watchers unchanged, and leaves an already-initialized configuration
unchanged; the one mutation it can make is initializing an uninitialized
configuration, which happens before the attachment check. -/
theorem unattached_tick_frame (s : State) (reg : Settings) (r : Reads)
    (phase : TimerState) :
    (tick s reg false r phase).1.watchers = s.watchers ∧
    (tick s reg false r phase).2 = [] ∧
    (∀ st, s.settings = some st →
      (tick s reg false r phase).1.settings = some st) := by
  refine ⟨rfl, rfl, fun st hst => ?_⟩
  simp [tick, settle, hst]

/-- Witness for claim C7 (amended): the frame condition at a concrete
already-initialized state. -/
theorem unattached_tick_frame_witness :
    (tick wState allTrue false wReads TimerState.Running).1.watchers =
      wState.watchers ∧
    (tick wState allTrue false wReads TimerState.Running).2 = [] ∧
    (tick wState allTrue false wReads TimerState.Running).1.settings =
      some allTrue :=
  ⟨(unattached_tick_frame wState allTrue wReads TimerState.Running).1,
   (unattached_tick_frame wState allTrue wReads TimerState.Running).2.1,
   (unattached_tick_frame wState allTrue wReads TimerState.Running).2.2
     allTrue rfl⟩

/-- Claim C9: `Watcher.update none` preserves the pair (primed or not);
`Watcher.update (some v)` shifts current into old and sets current to v,
the first successful update establishing old = current = v; and
`update_infallible v` behaves like `update (some v)`. -/
theorem watcher_update_spec {T : Type} (w : Watcher T) (v : T) :
    w.update none = w ∧
    (w.pair = none → (w.update (some v)).pair = some ⟨v, v⟩) ∧
    (∀ p, w.pair = some p → (w.update (some v)).pair = some ⟨p.current, v⟩) ∧
    w.update_infallible v = w.update (some v) := by
  refine ⟨rfl, fun h => ?_, fun p hp => ?_, rfl⟩ <;>
    simp [Watcher.update, *]

/-- Witness for claim C9: the Watcher contract evaluated on concrete
primed and unprimed watchers. -/
theorem watcher_update_spec_witness :
    Watcher.update (⟨some ⟨1, 2⟩⟩ : Watcher Nat) none = ⟨some ⟨1, 2⟩⟩ ∧
    (Watcher.update (⟨none⟩ : Watcher Nat) (some 5)).pair = some ⟨5, 5⟩ ∧
    (Watcher.update (⟨some ⟨1, 2⟩⟩ : Watcher Nat) (some 5)).pair =
      some ⟨2, 5⟩ ∧
    Watcher.update_infallible (⟨some ⟨1, 2⟩⟩ : Watcher Nat) 5 =
      Watcher.update ⟨some ⟨1, 2⟩⟩ (some 5) :=
  ⟨(watcher_update_spec (⟨some ⟨1, 2⟩⟩ : Watcher Nat) 5).1,
   (watcher_update_spec (⟨none⟩ : Watcher Nat) 5).2.1 rfl,
   (watcher_update_spec (⟨some ⟨1, 2⟩⟩ : Watcher Nat) 5).2.2.1 ⟨1, 2⟩ rfl,
   (watcher_update_spec (⟨some ⟨1, 2⟩⟩ : Watcher Nat) 5).2.2.2⟩

/-- A concrete state on which `start()` holds: all settings enabled,
menu-timeout history ⟨11, 0⟩, menu-selection ⟨1, 1⟩, menu-trigger
⟨3, 2⟩, run-phase ⟨0, 0⟩. -/
def wStartState : State :=
  { settings := some allTrue
    watchers :=
      { levelid := ⟨none⟩
        state := ⟨some ⟨0, 0⟩⟩
        menu_timeout := ⟨some ⟨11, 0⟩⟩
        menu_trigger := ⟨some ⟨3, 2⟩⟩
        menu_selection := ⟨some ⟨1, 1⟩⟩ } }

/-- Witness for claim C2: `split()` holds on the concrete state whose
level history is ⟨ToxicCaves, Bonus1⟩ with the segment flag enabled. -/
theorem split_spec_witness : wState.split = true :=
  (split_spec wState).mpr
    ⟨allTrue, ⟨Levels.ToxicCaves, Levels.Bonus1⟩, ⟨0, 6⟩, rfl, rfl, rfl,
     Or.inl ⟨Levels.Bonus1, rfl, rfl, rfl⟩⟩

/-- Witness for claim C3: `start()` holds on `wStartState`. -/
theorem start_spec_witness : wStartState.start = true :=
  (start_spec wStartState).mpr
    ⟨allTrue, ⟨11, 0⟩, ⟨1, 1⟩, ⟨3, 2⟩, ⟨0, 0⟩, rfl, rfl, rfl, rfl, rfl, rfl,
     Or.inl rfl, rfl, by decide, rfl, by decide⟩

/-- Witness for claim C4: `reset()` holds on the concrete state whose
run-phase history is ⟨6, 0⟩ with auto-reset enabled. -/
theorem reset_spec_witness :
    ({ wState with
        watchers := { wState.watchers with state := ⟨some ⟨6, 0⟩⟩ } } :
      State).reset = true :=
  (reset_spec _).mpr ⟨allTrue, ⟨6, 0⟩, rfl, rfl, rfl, by decide, by decide, rfl⟩

/-- The sticky menu-selection rule in the claim's words: keep the raw
byte when it is 1, 2 or 15, otherwise fall back to the watcher's
previous current value, or 0 when the watcher was never primed. -/
def stickyRule (prev : Option (Pair Nat)) (raw : Nat) : Nat :=
  if raw = 1 ∨ raw = 2 ∨ raw = 15 then raw
  else
    match prev with
    | some p => p.current
    | none => 0

/-- The menu-selection invariant: whenever the watcher is primed, its
current value is 0, 1, 2 or 15. -/
def menuSelInv (s : State) : Prop :=
  ∀ p, s.watchers.menu_selection.pair = some p →
    p.current = 0 ∨ p.current = 1 ∨ p.current = 2 ∨ p.current = 15

/-- The menu-selection computation of `State.update` refines the sticky
rule: the refreshed watcher is the infallible update with the value the
sticky rule selects from the defaulted raw read. -/
theorem update_menu_selection (s : State) (r : Reads) :
    (s.update r).watchers.menu_selection =
      s.watchers.menu_selection.update_infallible
        (stickyRule s.watchers.menu_selection.pair (r.menu_selection.getD 0)) := by
  unfold State.update stickyRule
  rcases hr : r.menu_selection with _ | b
  · cases hp : s.watchers.menu_selection.pair <;> simp [hp]
  · by_cases h1 : b = 1
    · subst h1; simp
    · by_cases h2 : b = 2
      · subst h2; simp
      · by_cases h15 : b = 15
        · subst h15; simp
        · cases hp : s.watchers.menu_selection.pair <;>
            simp [hp, h1, h2, h15]

/-- A sticky-rule value is always 0, 1, 2 or 15 provided the previous
pair respected the invariant. -/
theorem stickyRule_mem (prev : Option (Pair Nat)) (raw : Nat)
    (h : ∀ p, prev = some p →
      p.current = 0 ∨ p.current = 1 ∨ p.current = 2 ∨ p.current = 15) :
    stickyRule prev raw = 0 ∨ stickyRule prev raw = 1 ∨
      stickyRule prev raw = 2 ∨ stickyRule prev raw = 15 := by
  unfold stickyRule
  split
  · tauto
  · cases prev with
    | none => simp
    | some p => simpa using h p rfl

/-- Claim C10: on every attached tick the menu-selection watcher is
refreshed infallibly with the value the sticky rule selects — the
defaulted raw byte at 0xFF69 when it is 1, 2 or 15, otherwise the
previous current value, or 0 when never primed; hence the invariant that
a primed menu-selection current is 0, 1, 2 or 15 holds initially and is
preserved by every tick, and a current value outside a tick's raw-byte
set {1, 2, 15} is retained across that attached tick. -/
theorem menu_selection_sticky (s : State) (reg : Settings)
    (attached : Bool) (r : Reads) (phase : TimerState) :
    menuSelInv initialState ∧
    (attached = true →
      (tick s reg attached r phase).1.watchers.menu_selection =
        s.watchers.menu_selection.update_infallible
          (stickyRule s.watchers.menu_selection.pair
            (r.menu_selection.getD 0))) ∧
    (menuSelInv s → menuSelInv (tick s reg attached r phase).1) ∧
    (attached = true →
      ¬(r.menu_selection.getD 0 = 1 ∨ r.menu_selection.getD 0 = 2 ∨
          r.menu_selection.getD 0 = 15) →
      ∀ p, s.watchers.menu_selection.pair = some p →
        (tick s reg attached r phase).1.watchers.menu_selection.pair =
          some ⟨p.current, p.current⟩) := by
  have hupd := update_menu_selection (settle s reg) r
  have hsettle : (settle s reg).watchers = s.watchers := rfl
  rw [hsettle] at hupd
  refine ⟨?_, fun ha => ?_, fun hinv => ?_, fun ha hraw p hp => ?_⟩
  · intro p hp
    simp [initialState] at hp
  · subst ha
    have ht : (tick s reg true r phase).1 = (settle s reg).update r := rfl
    rw [ht, hupd]
  · cases attached with
    | false =>
      intro p hp
      have ht : (tick s reg false r phase).1.watchers = s.watchers := rfl
      rw [ht] at hp
      exact hinv p hp
    | true =>
      intro p hp
      have ht : (tick s reg true r phase).1 = (settle s reg).update r := rfl
      rw [ht, hupd] at hp
      have hmem := stickyRule_mem s.watchers.menu_selection.pair
        (r.menu_selection.getD 0) hinv
      unfold Watcher.update_infallible Watcher.update at hp
      cases hq : s.watchers.menu_selection.pair <;> rw [hq] at hp hmem <;>
        simp at hp <;> rw [← hp] <;> simpa using hmem
  · subst ha
    have ht : (tick s reg true r phase).1 = (settle s reg).update r := rfl
    rw [ht, hupd]
    unfold Watcher.update_infallible Watcher.update stickyRule
    rw [hp]
    simp [hraw]

/-- A concrete state whose menu-selection watcher holds the pair
⟨2, 15⟩. -/
def wSelState : State :=
  { settings := some allTrue
    watchers :=
      { levelid := ⟨none⟩
        state := ⟨none⟩
        menu_timeout := ⟨none⟩
        menu_trigger := ⟨none⟩
        menu_selection := ⟨some ⟨2, 15⟩⟩ } }

/-- A concrete read outcome whose menu-selection byte is 7, outside the
sticky set {1, 2, 15}. -/
def wSelReads : Reads := ⟨none, none, none, none, none, some 7⟩

/-- The concrete state `wSelState` satisfies the menu-selection
invariant. -/
theorem wSelState_inv : menuSelInv wSelState := by
  intro p hp
  have h : (⟨2, 15⟩ : Pair Nat) = p := Option.some.inj hp
  subst h
  decide

/-- Witness for claim C10: a concrete attached tick whose raw
menu-selection byte is 7 keeps the current value 15. -/
theorem menu_selection_sticky_witness :
    menuSelInv initialState ∧
    (tick wSelState allTrue true wSelReads
        TimerState.NotRunning).1.watchers.menu_selection =
      wSelState.watchers.menu_selection.update_infallible
        (stickyRule wSelState.watchers.menu_selection.pair
          (wSelReads.menu_selection.getD 0)) ∧
    menuSelInv (tick wSelState allTrue true wSelReads
      TimerState.NotRunning).1 ∧
    (tick wSelState allTrue true wSelReads
        TimerState.NotRunning).1.watchers.menu_selection.pair =
      some ⟨15, 15⟩ :=
  ⟨(menu_selection_sticky wSelState allTrue true wSelReads
      TimerState.NotRunning).1,
   (menu_selection_sticky wSelState allTrue true wSelReads
      TimerState.NotRunning).2.1 rfl,
   (menu_selection_sticky wSelState allTrue true wSelReads
      TimerState.NotRunning).2.2.1 wSelState_inv,
   (menu_selection_sticky wSelState allTrue true wSelReads
      TimerState.NotRunning).2.2.2 rfl (by decide) ⟨2, 15⟩ rfl⟩

end Spinball
